import Mathlib

/-!
Verification of the GPX ingestion and route-statistics engine of the
BibJournal race-journal application.

The development shallowly embeds three source components:

* the track parser (`src/lib/gpxParser.js`, `parseGPX`): modelled from the
  point where the DOM parser has produced the list of `<trkpt>` elements —
  each element is a `RawTrkpt` carrying its raw attribute / child strings;
* the route statistics calculator (`src/lib/gpxParser.js`,
  `calculateRouteStats` and `haversineDistance`);
* the aggregate stats composer (`calculateStats`, `parseTimeToSeconds`,
  `getDistanceInKm`, `formatPace` from the race-utils module).

JavaScript numbers are modelled by real numbers, with `JSNum` adjoining an
explicit NaN value where the source can produce one (`parseFloat`, `Date`
parsing).  `Option` models JS `null`/absent fields.  Console logging in the
source has no effect on the returned values and is not modelled.
-/

namespace BibJournal

/-- A JavaScript floating-point value that may be NaN.  Finite values are
modelled as real numbers; infinities do not arise in the modelled code paths
(the `Infinity` min/max sentinels of the statistics loop are modelled by the
dedicated accumulator type `EAcc`). -/
inductive JSNum where
  | nan : JSNum
  | num (x : ℝ) : JSNum

/-- `isNaN(x)` on a `JSNum`. -/
def JSNum.isNaN : JSNum → Bool
  | JSNum.nan => true
  | JSNum.num _ => false

/-- Numeric value of a list of decimal digit characters, most significant
first (helper for the `Number` / `parseFloat` models). -/
def digitsVal (l : List Char) : ℕ :=
  l.foldl (fun a c => a * 10 + (c.toNat - 48)) 0

/-- Leading/trailing-whitespace trim on a character list (the semantics of
JavaScript `String.prototype.trim`). -/
def charTrim (l : List Char) : List Char :=
  ((l.dropWhile Char.isWhitespace).reverse.dropWhile Char.isWhitespace).reverse

/-- JavaScript `Number(s)` on an already-trimmed string, restricted to plain
decimal literals `[+-]? digits [. digits]` (the shapes relevant to finish
times; exponent/hex/Infinity literals are outside the modelled input space).
`none` models NaN; the empty string converts to `0`.  The call site in
`parseTimeToSeconds` always trims its argument first, so `Number`'s own
leading-whitespace handling is absorbed by the caller. -/
def jsNumberL (l : List Char) : Option ℚ :=
  if l = [] then some 0
  else
    let sl : ℚ × List Char :=
      match l with
      | '-' :: r => (-1, r)
      | '+' :: r => (1, r)
      | _ => (1, l)
    let ip := sl.2.takeWhile Char.isDigit
    let r1 := sl.2.dropWhile Char.isDigit
    match r1 with
    | [] => if ip = [] then none else some (sl.1 * (digitsVal ip : ℚ))
    | '.' :: r =>
      let fp := r.takeWhile Char.isDigit
      if r.dropWhile Char.isDigit = [] ∧ ¬(ip = [] ∧ fp = []) then
        some (sl.1 * ((digitsVal ip : ℚ) + (digitsVal fp : ℚ) / (10 : ℚ) ^ fp.length))
      else none
    | _ => none

/-- `s.split(':')` on a character list: splits at every colon, keeping empty
segments, and always returns at least one segment. -/
def splitColon : List Char → List (List Char)
  | [] => [[]]
  | c :: rest =>
    if c = ':' then [] :: splitColon rest
    else
      match splitColon rest with
      | [] => [[c]]
      | p :: ps => (c :: p) :: ps

/-- The `parts` array of `parseTimeToSeconds`: trim the whole string, split
on `:`, convert each part with `Number(part.trim())`, coercing NaN to `0`
(`isNaN(num) ? 0 : num` in the source). -/
def timeParts (l : List Char) : List ℚ :=
  (splitColon (charTrim l)).map (fun part => (jsNumberL (charTrim part)).getD 0)

/-- `parseTimeToSeconds(timeString)` from the race-utils module: `H:MM:SS`
is hours*3600 + minutes*60 + seconds, `MM:SS` is minutes*60 + seconds, a
single part is accepted as total seconds when positive; any other part count
yields null.  A falsy (empty) input string yields null immediately. -/
def parseTimeToSecondsL (l : List Char) : Option ℚ :=
  if l = [] then none
  else
    match timeParts l with
    | [h, m, s] => some (h * 3600 + m * 60 + s)
    | [m, s] => some (m * 60 + s)
    | [v] => if 0 < v then some v else none
    | _ => none

/-- String-level wrapper for `parseTimeToSeconds`. -/
def parseTimeToSeconds (timeString : String) : Option ℚ :=
  parseTimeToSecondsL timeString.data

/-- JavaScript `parseFloat(s)`: skip leading whitespace, then parse the
longest prefix of the form `[+-]? digits [. digits]`; NaN (`none` here) when
no digit is consumed.  Exponent suffixes are outside the modelled input
space. -/
def parseFloatQ (s : String) : Option ℚ :=
  let l := s.data.dropWhile Char.isWhitespace
  let sl : ℚ × List Char :=
    match l with
    | '-' :: r => (-1, r)
    | '+' :: r => (1, r)
    | _ => (1, l)
  let ip := sl.2.takeWhile Char.isDigit
  let r1 := sl.2.dropWhile Char.isDigit
  let fp :=
    match r1 with
    | '.' :: r => r.takeWhile Char.isDigit
    | _ => []
  if ip = [] ∧ fp = [] then none
  else some (sl.1 * ((digitsVal ip : ℚ) + (digitsVal fp : ℚ) / (10 : ℚ) ^ fp.length))

/-! ## Track parser (`parseGPX`, lines 23-54 of `gpxParser.js`) -/

/-- One geodetic sample as pushed onto `coordinates` (lines 33-38 of the
source).  `elevation` is JS `null` (`none`) or the `parseFloat` result of
the `<ele>` text, which may itself be NaN.  `time` abstracts the stored
time string by its eventual `new Date(...)` parse: `none` models a
null/absent (falsy) time string, `some JSNum.nan` a present but unparsable
one, `some (JSNum.num t)` a string denoting the instant `t` in
milliseconds. -/
structure Coord where
  lat : ℝ
  lon : ℝ
  elevation : Option JSNum
  time : Option JSNum

/-- One `<trkpt>` element as handed over by the DOM: the raw `lat`/`lon`
attribute strings (`none` when the attribute is missing), the `<ele>` child
text (`none` when there is no such child), and the `<time>` child
abstracted as in `Coord.time` (`none` also covers an empty string, which is
falsy in `time || null`). -/
structure RawTrkpt where
  lat : Option String
  lon : Option String
  ele : Option String
  time : Option JSNum

/-- `parseFloat(trkpt.getAttribute(...))`: a missing attribute gives
`getAttribute = null`, and `parseFloat(null)` coerces to the string
`"null"`, which parses to NaN. -/
noncomputable def attrFloat : Option String → JSNum
  | none => JSNum.nan
  | some s =>
    match parseFloatQ s with
    | none => JSNum.nan
    | some q => JSNum.num (q : ℝ)

/-- `elevation: ele ? parseFloat(ele) : null` (line 36): an absent or empty
(falsy) `<ele>` text stores null, otherwise the `parseFloat` result — which
is NaN, not null, when the text is non-numeric. -/
noncomputable def eleVal : Option String → Option JSNum
  | none => none
  | some s => if s = "" then none else some (attrFloat (some s))

/-- Lines 26-40: a point is pushed iff `!isNaN(lat) && !isNaN(lon)`. -/
noncomputable def parsePoint (p : RawTrkpt) : Option Coord :=
  match attrFloat p.lat, attrFloat p.lon with
  | JSNum.num la, JSNum.num lo =>
    some { lat := la, lon := lo, elevation := eleVal p.ele, time := p.time }
  | _, _ => none

/-- The `coordinates` array built by the `trkpts.forEach` loop, in document
order. -/
noncomputable def parseGPXPoints (pts : List RawTrkpt) : List Coord :=
  pts.filterMap parsePoint

/-- The two parse-failure cases.  `invalidFormat` (the `parsererror` branch,
line 18) lives at the DOM boundary, before the modelled entry point, so the
modelled `parseGPX` only ever signals `noTrackPoints`. -/
inductive ParseError where
  | invalidFormat : ParseError
  | noTrackPoints : ParseError

/-! ## Route statistics calculator (`calculateRouteStats`, lines 70-156) -/

/-- JavaScript `Math.atan2(y, x)`. -/
noncomputable def atan2 (y x : ℝ) : ℝ :=
  if 0 < x then Real.arctan (y / x)
  else if x < 0 ∧ 0 ≤ y then Real.arctan (y / x) + Real.pi
  else if x < 0 ∧ y < 0 then Real.arctan (y / x) - Real.pi
  else if x = 0 ∧ 0 < y then Real.pi / 2
  else if x = 0 ∧ y < 0 then -(Real.pi / 2)
  else 0

/-- `haversineDistance(lat1, lon1, lat2, lon2)` (lines 166-176): great-circle
distance in kilometers with Earth radius 6371 km. -/
noncomputable def haversineDistance (lat1 lon1 lat2 lon2 : ℝ) : ℝ :=
  let R : ℝ := 6371
  let dLat := (lat2 - lat1) * Real.pi / 180
  let dLon := (lon2 - lon1) * Real.pi / 180
  let a := Real.sin (dLat / 2) * Real.sin (dLat / 2) +
    Real.cos (lat1 * Real.pi / 180) * Real.cos (lat2 * Real.pi / 180) *
    Real.sin (dLon / 2) * Real.sin (dLon / 2)
  let c := 2 * atan2 (Real.sqrt a) (Real.sqrt (1 - a))
  R * c

/-- The `(prev, curr)` pairs visited by the loop `for (i = 1; i < n; i++)`. -/
def adjPairs : List Coord → List (Coord × Coord)
  | [] => []
  | [_] => []
  | a :: b :: r => (a, b) :: adjPairs (b :: r)

/-- Lines 79-85: `hasTimeData` is true iff at least one of the first
`min(n, 10)` samples has a truthy time string (`timeDataCount > 0`). -/
def hasTimeData (coords : List Coord) : Bool :=
  (coords.take 10).any (fun c => c.time.isSome)

/-- `totalDistance` accumulation (lines 97-99): sum of pairwise haversine
distances. -/
noncomputable def totalDistance (coords : List Coord) : ℝ :=
  (adjPairs coords).foldl
    (fun acc pc => acc + haversineDistance pc.1.lat pc.1.lon pc.2.lat pc.2.lon) 0

/-- The amount one `(prev, curr)` pair adds to `totalTimeSeconds`
(lines 101-119): both time strings must be truthy, both dates valid, and
the delta (ms to s) accepted only when `0 < timeDiff < 3600`. -/
noncomputable def pairTimeContrib (hTD : Bool) (prev curr : Coord) : ℝ :=
  if hTD then
    match prev.time, curr.time with
    | some (JSNum.num p), some (JSNum.num c) =>
      let timeDiff := (c - p) / 1000
      if 0 < timeDiff ∧ timeDiff < 3600 then timeDiff else 0
    | _, _ => 0
  else 0

/-- `totalTimeSeconds` accumulation across the loop. -/
noncomputable def totalTimeSeconds (hTD : Bool) (coords : List Coord) : ℝ :=
  (adjPairs coords).foldl (fun acc pc => acc + pairTimeContrib hTD pc.1 pc.2) 0

/-- The amount one pair adds to `totalElevationGain` (lines 122-125): both
elevations non-null, and `curr.elevation > prev.elevation` — a comparison
that is false whenever either side is NaN. -/
noncomputable def pairElevGain (prev curr : Coord) : ℝ :=
  match prev.elevation, curr.elevation with
  | some (JSNum.num pe), some (JSNum.num ce) => if pe < ce then ce - pe else 0
  | _, _ => 0

/-- `totalElevationGain` accumulation across the loop. -/
noncomputable def totalElevationGain (coords : List Coord) : ℝ :=
  (adjPairs coords).foldl (fun acc pc => acc + pairElevGain pc.1 pc.2) 0

/-- State of the `minElevation` / `maxElevation` accumulators: `init` is the
untouched `Infinity` / `-Infinity` sentinel, `nan` the NaN-poisoned state
(`Math.min`/`Math.max` return NaN as soon as any argument is NaN), `val r`
a finite accumulated value. -/
inductive EAcc where
  | init : EAcc
  | nan : EAcc
  | val (r : ℝ) : EAcc

/-- `minElevation = Math.min(minElevation, curr.elevation, prev.elevation)`
(line 126), executed only when both elevations are non-null. -/
noncomputable def minUpdate (acc : EAcc) (pe ce : JSNum) : EAcc :=
  match acc, pe, ce with
  | EAcc.nan, _, _ => EAcc.nan
  | _, JSNum.nan, _ => EAcc.nan
  | _, _, JSNum.nan => EAcc.nan
  | EAcc.init, JSNum.num p, JSNum.num c => EAcc.val (min c p)
  | EAcc.val m, JSNum.num p, JSNum.num c => EAcc.val (min m (min c p))

/-- `maxElevation = Math.max(maxElevation, curr.elevation, prev.elevation)`
(line 127), executed only when both elevations are non-null. -/
noncomputable def maxUpdate (acc : EAcc) (pe ce : JSNum) : EAcc :=
  match acc, pe, ce with
  | EAcc.nan, _, _ => EAcc.nan
  | _, JSNum.nan, _ => EAcc.nan
  | _, _, JSNum.nan => EAcc.nan
  | EAcc.init, JSNum.num p, JSNum.num c => EAcc.val (max c p)
  | EAcc.val m, JSNum.num p, JSNum.num c => EAcc.val (max m (max c p))

/-- One loop step for the min accumulator: the guard
`prev.elevation !== null && curr.elevation !== null` (line 122). -/
noncomputable def minStep (acc : EAcc) (pc : Coord × Coord) : EAcc :=
  match pc.1.elevation, pc.2.elevation with
  | some pe, some ce => minUpdate acc pe ce
  | _, _ => acc

/-- One loop step for the max accumulator, same guard. -/
noncomputable def maxStep (acc : EAcc) (pc : Coord × Coord) : EAcc :=
  match pc.1.elevation, pc.2.elevation with
  | some pe, some ce => maxUpdate acc pe ce
  | _, _ => acc

/-- `minElevation` accumulator after the loop. -/
noncomputable def minElevAcc (coords : List Coord) : EAcc :=
  (adjPairs coords).foldl minStep EAcc.init

/-- `maxElevation` accumulator after the loop. -/
noncomputable def maxElevAcc (coords : List Coord) : EAcc :=
  (adjPairs coords).foldl maxStep EAcc.init

/-- Lines 148-149: `minElevation === Infinity ? null : minElevation` (and
symmetrically for max): the untouched sentinel becomes null, while a
NaN-poisoned accumulator is returned as NaN, not null. -/
def eaccOut : EAcc → Option JSNum
  | EAcc.init => none
  | EAcc.nan => some JSNum.nan
  | EAcc.val r => some (JSNum.num r)

/-- The record returned by `calculateRouteStats` (lines 145-155). -/
structure RouteStats where
  distance : ℝ
  elevationGain : ℝ
  minElevation : Option JSNum
  maxElevation : Option JSNum
  pointsCount : ℕ
  totalTime : Option ℝ
  averagePace : Option ℝ
  averagePacePerMile : Option ℝ
  hasTimeData : Bool

open Classical in
/-- `calculateRouteStats(coordinates)` (lines 70-156).  The pace fields are
assigned only inside `if (hasTimeData && totalTimeSeconds > 0 &&
totalDistance > 0)` (line 134); `totalTime` is null unless `hasTimeData &&
totalTimeSeconds > 0` (line 151). -/
noncomputable def calculateRouteStats (coords : List Coord) : RouteStats :=
  let hTD := hasTimeData coords
  let D := totalDistance coords
  let T := totalTimeSeconds hTD coords
  { distance := D
    elevationGain := totalElevationGain coords
    minElevation := eaccOut (minElevAcc coords)
    maxElevation := eaccOut (maxElevAcc coords)
    pointsCount := coords.length
    totalTime := if hTD = true ∧ 0 < T then some T else none
    averagePace := if hTD = true ∧ 0 < T ∧ 0 < D then some (T / D / 60) else none
    averagePacePerMile :=
      if hTD = true ∧ 0 < T ∧ 0 < D then some (T / (D * 0.621371) / 60) else none
    hasTimeData := hTD }

/-- `calculateBounds(coordinates)` (lines 183-193): min/max over the lat and
lon projections.  The source spreads the lists into `Math.min`/`Math.max`
and is only invoked on a non-empty `coordinates`, so the `none` branch (the
empty-spread `Infinity` result) never escapes `parseGPX`. -/
structure Bounds where
  minLat : ℝ
  maxLat : ℝ
  minLon : ℝ
  maxLon : ℝ

/-- Bounding box; `none` for the empty list (unreachable from `parseGPX`). -/
noncomputable def calculateBounds (coords : List Coord) : Option Bounds :=
  match (coords.map Coord.lat).min?, (coords.map Coord.lat).max?,
      (coords.map Coord.lon).min?, (coords.map Coord.lon).max? with
  | some a, some b, some c, some d =>
    some { minLat := a, maxLat := b, minLon := c, maxLon := d }
  | _, _, _, _ => none

/-- The value resolved by `parseGPX` (lines 50-54). -/
structure GPXResult where
  coordinates : List Coord
  stats : RouteStats
  bounds : Option Bounds

/-- `parseGPX` from the DOM hand-off onwards (lines 23-54): build the
surviving sample list, reject with `NoTrackPoints` when it is empty
(line 42: `coordinates.length === 0`), otherwise compute statistics and
bounds. -/
noncomputable def parseGPX (pts : List RawTrkpt) : Except ParseError GPXResult :=
  let coords := parseGPXPoints pts
  if coords.length = 0 then Except.error ParseError.noTrackPoints
  else
    Except.ok
      { coordinates := coords
        stats := calculateRouteStats coords
        bounds := calculateBounds coords }

/-! ## Aggregate stats composer (`calculateStats` and helpers from the
race-utils module) -/

/-- `getDistanceInKm(raceDistance)`: nominal kilometers for a categorical
race-distance label; unknown labels (and the explicit `'Other': 0` entry)
fall through `|| 0` to `0`. -/
def getDistanceInKm (raceDistance : String) : ℚ :=
  if raceDistance = "5K" then 5
  else if raceDistance = "10K" then 10
  else if raceDistance = "Half Marathon" then 21.0975
  else if raceDistance = "Marathon" then 42.195
  else if raceDistance = "Ultra" then 50
  else if raceDistance = "Triathlon" then 51.5
  else 0

/-- JavaScript `Math.trunc`-style rounding used by the `%` remainder. -/
noncomputable def jsTrunc (x : ℝ) : ℤ :=
  if 0 ≤ x then Int.floor x else -Int.floor (-x)

open Classical in
/-- `formatPace(secondsPerKm)`: null for a falsy (zero) argument, otherwise
the `M:SS/km` string built from `Math.floor(s / 60)` and
`Math.floor(s % 60)` with zero-padding of the seconds. -/
noncomputable def formatPace (secondsPerKm : ℝ) : Option String :=
  if secondsPerKm = 0 then none
  else
    let minutes : ℤ := Int.floor (secondsPerKm / 60)
    let seconds : ℤ := Int.floor (secondsPerKm - 60 * (jsTrunc (secondsPerKm / 60) : ℝ))
    let secStr := if seconds < 10 then "0" ++ toString seconds else toString seconds
    some (toString minutes ++ ":" ++ secStr ++ "/km")

/-- The `entry.routeData.stats` projection as read by `calculateStats`:
only `distance` and `totalTime` are consulted.  `none` models an
absent/undefined (or NaN) field, both of which fail the truthiness guards
`stats.distance && stats.distance > 0` and
`stats.totalTime && stats.totalTime > 0`. -/
structure EntryStats where
  distance : Option ℝ
  totalTime : Option ℝ

/-- `entry.routeData`: may itself lack a `stats` field. -/
structure EntryRouteData where
  stats : Option EntryStats

/-- `entry.results`: only `finishTime` is consulted; `none` models an
absent or empty (falsy) finish-time string. -/
structure EntryResults where
  finishTime : Option String

/-- A journal entry as consumed by `calculateStats`.  `raceDistance` and
`raceType` are the categorical labels (`none` models an absent/empty, hence
falsy, field). -/
structure Entry where
  routeData : Option EntryRouteData
  raceDistance : Option String
  raceType : Option String
  results : Option EntryResults

/-- The guard `entry.routeData && entry.routeData.stats`. -/
def hasRouteStats (e : Entry) : Bool :=
  match e.routeData with
  | some rd => rd.stats.isSome
  | none => false

/-- `entry.routeData.stats` when present. -/
def statsOf (e : Entry) : Option EntryStats :=
  e.routeData.bind EntryRouteData.stats

/-- The guard `entry.results && entry.results.finishTime`. -/
def hasFinishTime (e : Entry) : Bool :=
  match e.results with
  | some r => r.finishTime.isSome
  | none => false

open Classical in
/-- Lines 161-166 of `calculateStats`: the entry's contribution to
`stats.totalDistance` — the GPX distance exactly when
`entry.routeData && entry.routeData.stats && stats.distance &&
stats.distance > 0`, and `0` otherwise.  The categorical labels are never
consulted here. -/
noncomputable def gpsDistanceContrib (e : Entry) : ℝ :=
  match statsOf e with
  | some st =>
    match st.distance with
    | some d => if 0 < d then d else 0
    | none => 0
  | none => 0

open Classical in
/-- Lines 183-230 of `calculateStats`: the pace sample (seconds per km) the
entry pushes onto `paceData`, if any.  The first branch fires whenever
`entry.routeData && entry.routeData.stats` holds and requires both a GPX
distance and a GPX time; the `else if` fallback repeats the
`entry.routeData && entry.routeData.stats` conjunct even though it is only
reached when that conjunct is false. -/
noncomputable def entryPaceContrib (e : Entry) : Option ℝ :=
  if hasRouteStats e then
    match statsOf e with
    | some st =>
      match st.distance, st.totalTime with
      | some d, some t => if 0 < d ∧ 0 < t then some (t / d) else none
      | _, _ => none
    | none => none
  else if hasFinishTime e = true ∧ hasRouteStats e = true ∧
      (match statsOf e with
       | some st => match st.distance with | some d => 0 < d | none => False
       | none => False) then
    match statsOf e, e.results.bind EntryResults.finishTime with
    | some st, some ftStr =>
      match st.distance with
      | some d =>
        match parseTimeToSeconds ftStr with
        | some ft => if 0 < ft then some ((ft : ℝ) / d) else none
        | none => none
      | none => none
    | _, _ => none
  else none

/-- The valid categorical labels accepted from the legacy `raceType` field
(lines 142-147 / 170-176). -/
def raceTypeLabels : List String :=
  ["5K", "10K", "Half Marathon", "Marathon", "Ultra", "Triathlon", "Other"]

/-- `categoricalDistance` for the favorite-distance tally (lines 168-179):
`entry.raceDistance`, falling back to a legacy `raceType` when it is one of
the known labels. -/
def categoricalDistance (e : Entry) : Option String :=
  match e.raceDistance with
  | some s => some s
  | none =>
    match e.raceType with
    | some t => if t ∈ raceTypeLabels then some t else none
    | none => none

/-- `distanceCounts[d] = (distanceCounts[d] || 0) + 1` on an
insertion-ordered association list (JS object string keys preserve
insertion order). -/
def bumpCount (l : List (String × ℕ)) (k : String) : List (String × ℕ) :=
  if l.any (fun p => p.1 = k) then
    l.map (fun p => if p.1 = k then (p.1, p.2 + 1) else p)
  else l ++ [(k, 1)]

/-- Lines 244-249: sort the tally descending by count (a stable sort, so
ties keep insertion order) and take the first label — equivalently, the
first label attaining the maximal count. -/
def favoriteOf (l : List (String × ℕ)) : Option String :=
  (l.foldl
    (fun best p =>
      match best with
      | none => some p
      | some b => if b.2 < p.2 then some p else some b)
    none).map Prod.fst

/-- The record returned by `calculateStats`. -/
structure AggStats where
  totalRaces : ℕ
  totalDistance : ℝ
  averagePace : Option String
  favoriteDistance : Option String

open Classical in
/-- `calculateStats(entries)` (lines 98-252).  Lines 115-159 compute the
locals `actualDistanceKm` / `actualTimeSeconds` / `paceSource`, which are
never read afterwards (they feed `console.log` only) and are therefore not
modelled; the returned record depends on the per-entry distance
contribution, the pace samples, and the categorical tally alone. -/
noncomputable def calculateStats (entries : List Entry) : AggStats :=
  if entries.length = 0 then
    { totalRaces := entries.length
      totalDistance := 0
      averagePace := none
      favoriteDistance := none }
  else
    let totalDistance := entries.foldl (fun acc e => acc + gpsDistanceContrib e) 0
    let paceData := entries.filterMap entryPaceContrib
    let distanceCounts :=
      entries.foldl
        (fun counts e =>
          match categoricalDistance e with
          | some lbl => bumpCount counts lbl
          | none => counts)
        []
    { totalRaces := entries.length
      totalDistance := totalDistance
      averagePace :=
        if 0 < paceData.length then formatPace (paceData.sum / paceData.length) else none
      favoriteDistance := favoriteOf distanceCounts }

/-! ## Theorems -/

/-- Helper: a left fold accumulating `+ f x` is the sum of the mapped
list. -/
theorem foldl_add_eq_sum {α : Type} (f : α → ℝ) :
    ∀ (l : List α) (a : ℝ), l.foldl (fun acc x => acc + f x) a = a + (l.map f).sum := by
  intro l
  induction l with
  | nil => intro a; simp
  | cons x xs ih => intro a; simp [ih, add_assoc]

/-- C1: for every sample list, the route statistics have non-null
`averagePace` and `averagePacePerMile` exactly when `hasTimeData` is true
AND the accumulated total time is positive AND the accumulated distance is
positive; in particular `hasTimeData = false` forces both pace fields to
null. -/
theorem c1_pace_three_way_gate (coords : List Coord) :
    ((calculateRouteStats coords).averagePace.isSome = true ↔
      hasTimeData coords = true ∧
        0 < totalTimeSeconds (hasTimeData coords) coords ∧ 0 < totalDistance coords) ∧
    ((calculateRouteStats coords).averagePacePerMile.isSome = true ↔
      hasTimeData coords = true ∧
        0 < totalTimeSeconds (hasTimeData coords) coords ∧ 0 < totalDistance coords) ∧
    (hasTimeData coords = false →
      (calculateRouteStats coords).averagePace = none ∧
        (calculateRouteStats coords).averagePacePerMile = none) := by
  by_cases h : hasTimeData coords = true ∧
      0 < totalTimeSeconds (hasTimeData coords) coords ∧ 0 < totalDistance coords
  · refine ⟨?_, ?_, ?_⟩
    · simp [calculateRouteStats, h]
    · simp [calculateRouteStats, h]
    · intro hf
      rw [hf] at h
      simp at h
  · refine ⟨?_, ?_, ?_⟩
    · simp only [calculateRouteStats]
      rw [if_neg h]
      simpa using h
    · simp only [calculateRouteStats]
      rw [if_neg h]
      simpa using h
    · intro _
      constructor
      · simp only [calculateRouteStats]
        rw [if_neg h]
      · simp only [calculateRouteStats]
        rw [if_neg h]

/-- C2: the aggregate `totalDistance` is exactly the sum of the per-entry
GPX distance contributions (positive measured `routeData.stats.distance`
only); an entry with no route data contributes 0, stripping the categorical
labels from every entry leaves the total unchanged, and a "Marathon"-label
entry without route data yields total 0 — the nominal-kilometer lookup is
never added. -/
theorem c2_aggregate_distance_purity (entries : List Entry) :
    (calculateStats entries).totalDistance = (entries.map gpsDistanceContrib).sum ∧
    (∀ e : Entry, e.routeData = none → gpsDistanceContrib e = 0) ∧
    ((calculateStats (entries.map
        (fun e => { e with raceDistance := none, raceType := none }))).totalDistance =
      (calculateStats entries).totalDistance) ∧
    (calculateStats
        [{ routeData := none, raceDistance := some ("Marathon"), raceType := none,
           results := none }]).totalDistance = 0 := by
  have hsum : ∀ l : List Entry,
      (calculateStats l).totalDistance = (l.map gpsDistanceContrib).sum := by
    intro l
    match l with
    | [] => simp [calculateStats]
    | e :: es =>
      simp only [calculateStats]
      rw [if_neg (by simp)]
      simpa using foldl_add_eq_sum gpsDistanceContrib (e :: es) 0
  refine ⟨hsum entries, ?_, ?_, ?_⟩
  · intro e he
    simp [gpsDistanceContrib, statsOf, he]
  · rw [hsum, hsum, List.map_map]
    rfl
  · rw [hsum]
    simp [gpsDistanceContrib, statsOf]

/-- C3 (code bug): an entry with a parsable free-text finish time and a
measured GPX distance but no GPX time contributes no pace sample — the
finish-time fallback branch of `calculateStats` is the `else` of a
condition it itself requires, hence unreachable — so the aggregate average
pace stays null, and removing the finish time changes nothing for any
entry. -/
theorem c3_finish_time_fallback_dead :
    (calculateStats
        [{ routeData := some { stats := some { distance := some 10, totalTime := none } },
           raceDistance := none, raceType := none,
           results := some { finishTime := some ("40:00") } }]).averagePace = none ∧
    (entryPaceContrib
        { routeData := some { stats := some { distance := some 10, totalTime := none } },
          raceDistance := none, raceType := none,
          results := some { finishTime := some ("40:00") } } = none) ∧
    (∀ e : Entry, entryPaceContrib e = entryPaceContrib { e with results := none }) := by
  have hdead : ∀ e : Entry, entryPaceContrib e = entryPaceContrib { e with results := none } := by
    intro e
    by_cases h : hasRouteStats e = true
    · have h' : hasRouteStats { e with results := none } = true := h
      simp only [entryPaceContrib]
      rw [if_pos h, if_pos h']
      rfl
    · have h' : ¬hasRouteStats { e with results := none } = true := h
      simp only [entryPaceContrib]
      rw [if_neg h, if_neg h',
        if_neg (by intro hc; exact h hc.2.1), if_neg (by intro hc; exact h' hc.2.1)]
  have hentry : entryPaceContrib
      { routeData := some { stats := some { distance := some 10, totalTime := none } },
        raceDistance := none, raceType := none,
        results := some { finishTime := some ("40:00") } } = none := by
    simp [entryPaceContrib, hasRouteStats, statsOf]
  refine ⟨?_, hentry, hdead⟩
  simp only [calculateStats]
  rw [if_neg (by simp)]
  simp [hentry]

/-- The three-sample list of spec property P7: elevations 100, 80, 120. -/
noncomputable def p7Coords : List Coord :=
  [{ lat := 0, lon := 0, elevation := some (JSNum.num 100), time := none },
   { lat := 0, lon := 0, elevation := some (JSNum.num 80), time := none },
   { lat := 0, lon := 0, elevation := some (JSNum.num 120), time := none }]

/-- C4 counterexample: on elevations [100, 80, 120] the calculator does NOT
return `elevationGain = 20` — the only climbing pair is 80→120, which
contributes 40. -/
theorem c4_gain_twenty_refuted : (calculateRouteStats p7Coords).elevationGain ≠ 20 := by
  show totalElevationGain p7Coords ≠ 20
  simp only [p7Coords, totalElevationGain, adjPairs, List.foldl, pairElevGain]
  norm_num

/-- C4 amended: on elevations [100, 80, 120] the calculator returns
`elevationGain = 40` (the full 80→120 climb), `minElevation = 80`,
`maxElevation = 120`, and the descending pair 100→80 contributes 0 to the
gain. -/
theorem c4_elevation_example :
    (calculateRouteStats p7Coords).elevationGain = 40 ∧
    (calculateRouteStats p7Coords).minElevation = some (JSNum.num 80) ∧
    (calculateRouteStats p7Coords).maxElevation = some (JSNum.num 120) ∧
    pairElevGain { lat := 0, lon := 0, elevation := some (JSNum.num 100), time := none }
      { lat := 0, lon := 0, elevation := some (JSNum.num 80), time := none } = 0 := by
  refine ⟨?_, ?_, ?_, ?_⟩
  · show totalElevationGain p7Coords = 40
    simp only [p7Coords, totalElevationGain, adjPairs, List.foldl, pairElevGain]
    norm_num
  · show eaccOut (minElevAcc p7Coords) = some (JSNum.num 80)
    simp only [p7Coords, minElevAcc, adjPairs, List.foldl, minStep, minUpdate, eaccOut]
    norm_num [min_def]
  · show eaccOut (maxElevAcc p7Coords) = some (JSNum.num 120)
    simp only [p7Coords, maxElevAcc, adjPairs, List.foldl, maxStep, maxUpdate, eaccOut]
    norm_num [max_def]
  · simp only [pairElevGain]
    norm_num

/-- Helper: a fold of a guarded accumulator step stays at the `init`
sentinel exactly when it started there and no list element passes the
elevation-pair guard, provided the step is the identity on guard failure
and never produces `init` on guard success. -/
theorem foldl_elev_init (step : EAcc → Coord × Coord → EAcc)
    (hguard : ∀ (acc : EAcc) (pc : Coord × Coord),
      ¬(pc.1.elevation.isSome = true ∧ pc.2.elevation.isSome = true) → step acc pc = acc)
    (hne : ∀ (acc : EAcc) (pc : Coord × Coord),
      (pc.1.elevation.isSome = true ∧ pc.2.elevation.isSome = true) → step acc pc ≠ EAcc.init) :
    ∀ (l : List (Coord × Coord)) (acc : EAcc),
      l.foldl step acc = EAcc.init ↔
        acc = EAcc.init ∧
          ∀ pc ∈ l, ¬(pc.1.elevation.isSome = true ∧ pc.2.elevation.isSome = true) := by
  have haux : ∀ (l : List (Coord × Coord)) (acc : EAcc),
      acc ≠ EAcc.init → l.foldl step acc ≠ EAcc.init := by
    intro l
    induction l with
    | nil => intro acc h; simpa using h
    | cons pc rest ih =>
      intro acc h
      simp only [List.foldl_cons]
      by_cases hg : pc.1.elevation.isSome = true ∧ pc.2.elevation.isSome = true
      · exact ih _ (hne acc pc hg)
      · rw [hguard acc pc hg]; exact ih _ h
  intro l
  induction l with
  | nil => intro acc; simp
  | cons pc rest ih =>
    intro acc
    simp only [List.foldl_cons, List.mem_cons]
    by_cases hg : pc.1.elevation.isSome = true ∧ pc.2.elevation.isSome = true
    · constructor
      · intro hfold
        exact absurd hfold (haux rest _ (hne acc pc hg))
      · intro ⟨_, hall⟩
        exact absurd hg (hall pc (Or.inl rfl))
    · rw [hguard acc pc hg, ih acc]
      constructor
      · intro ⟨ha, hall⟩
        refine ⟨ha, ?_⟩
        intro pc' hpc'
        rcases hpc' with h | h
        · rw [h]; exact hg
        · exact hall pc' h
      · intro ⟨ha, hall⟩
        exact ⟨ha, fun pc' h => hall pc' (Or.inr h)⟩

/-- The min step is the identity when the pair guard fails. -/
theorem minStep_guard (acc : EAcc) (pc : Coord × Coord)
    (h : ¬(pc.1.elevation.isSome = true ∧ pc.2.elevation.isSome = true)) :
    minStep acc pc = acc := by
  rcases hp : pc.1.elevation with _ | pe <;> rcases hc : pc.2.elevation with _ | ce
  · simp [minStep, hp, hc]
  · simp [minStep, hp, hc]
  · simp [minStep, hp, hc]
  · exact absurd ⟨by simp [hp], by simp [hc]⟩ h

/-- The min step never returns the `init` sentinel when the guard holds. -/
theorem minStep_ne_init (acc : EAcc) (pc : Coord × Coord)
    (h : pc.1.elevation.isSome = true ∧ pc.2.elevation.isSome = true) :
    minStep acc pc ≠ EAcc.init := by
  rcases hp : pc.1.elevation with _ | pe
  · rw [hp] at h; simp at h
  · rcases hc : pc.2.elevation with _ | ce
    · rw [hc] at h; simp at h
    · simp only [minStep, hp, hc]
      cases acc <;> cases pe <;> cases ce <;> simp [minUpdate]

/-- The max step is the identity when the pair guard fails. -/
theorem maxStep_guard (acc : EAcc) (pc : Coord × Coord)
    (h : ¬(pc.1.elevation.isSome = true ∧ pc.2.elevation.isSome = true)) :
    maxStep acc pc = acc := by
  rcases hp : pc.1.elevation with _ | pe <;> rcases hc : pc.2.elevation with _ | ce
  · simp [maxStep, hp, hc]
  · simp [maxStep, hp, hc]
  · simp [maxStep, hp, hc]
  · exact absurd ⟨by simp [hp], by simp [hc]⟩ h

/-- The max step never returns the `init` sentinel when the guard holds. -/
theorem maxStep_ne_init (acc : EAcc) (pc : Coord × Coord)
    (h : pc.1.elevation.isSome = true ∧ pc.2.elevation.isSome = true) :
    maxStep acc pc ≠ EAcc.init := by
  rcases hp : pc.1.elevation with _ | pe
  · rw [hp] at h; simp at h
  · rcases hc : pc.2.elevation with _ | ce
    · rw [hc] at h; simp at h
    · simp only [maxStep, hp, hc]
      cases acc <;> cases pe <;> cases ce <;> simp [maxUpdate]

/-- The `eaccOut` projection is null exactly on the untouched sentinel. -/
theorem eaccOut_eq_none (x : EAcc) : eaccOut x = none ↔ x = EAcc.init := by
  cases x <;> simp [eaccOut]

/-- The sample list with elevations [100, absent, 50]: elevation-bearing
samples exist, but no consecutive pair carries elevation on both members. -/
noncomputable def gapCoords : List Coord :=
  [{ lat := 0, lon := 0, elevation := some (JSNum.num 100), time := none },
   { lat := 0, lon := 0, elevation := none, time := none },
   { lat := 0, lon := 0, elevation := some (JSNum.num 50), time := none }]

/-- C5 counterexample: in the list with elevations [100, absent, 50] some
sample carries an elevation, yet both `minElevation` and `maxElevation` are
null — refuting the claim that min/max range over every elevation-bearing
sample and are null exactly when no sample carries elevation. -/
theorem c5_minmax_all_samples_refuted :
    (calculateRouteStats gapCoords).minElevation = none ∧
    (calculateRouteStats gapCoords).maxElevation = none ∧
    gapCoords.any (fun c => c.elevation.isSome) = true := by
  refine ⟨?_, ?_, by simp [gapCoords]⟩
  · show eaccOut (minElevAcc gapCoords) = none
    simp [gapCoords, minElevAcc, adjPairs, minStep, eaccOut]
  · show eaccOut (maxElevAcc gapCoords) = none
    simp [gapCoords, maxElevAcc, adjPairs, maxStep, eaccOut]

/-- C5 amended: `minElevation` and `maxElevation` are null exactly when no
CONSECUTIVE pair of samples carries elevation on both members — a sample's
elevation enters min/max only through the pairwise guard, so an
elevation-bearing sample with no elevation-bearing neighbour is ignored. -/
theorem c5_minmax_pairwise_null (coords : List Coord) :
    ((calculateRouteStats coords).minElevation = none ↔
      ∀ pc ∈ adjPairs coords,
        ¬(pc.1.elevation.isSome = true ∧ pc.2.elevation.isSome = true)) ∧
    ((calculateRouteStats coords).maxElevation = none ↔
      ∀ pc ∈ adjPairs coords,
        ¬(pc.1.elevation.isSome = true ∧ pc.2.elevation.isSome = true)) := by
  constructor
  · show eaccOut (minElevAcc coords) = none ↔ _
    rw [eaccOut_eq_none, minElevAcc,
      foldl_elev_init minStep minStep_guard minStep_ne_init (adjPairs coords) EAcc.init]
    simp
  · show eaccOut (maxElevAcc coords) = none ↔ _
    rw [eaccOut_eq_none, maxElevAcc,
      foldl_elev_init maxStep maxStep_guard maxStep_ne_init (adjPairs coords) EAcc.init]
    simp

/-- A `<trkpt>` with valid coordinates and a non-numeric `<ele>` text. -/
def abcElePt : RawTrkpt :=
  { lat := some ("0"), lon := some ("0"), ele := some ("abc"), time := none }

/-- C6 counterexample: a track point with a present but non-numeric
elevation text is included, but its elevation is recorded as NaN, not as
absent/null as the claim states. -/
theorem c6_nonnumeric_ele_null_refuted :
    (parseGPXPoints [abcElePt]).map Coord.elevation = [some JSNum.nan] ∧
    (parseGPXPoints [abcElePt]).map Coord.elevation ≠ [none] := by
  have hmap : (parseGPXPoints [abcElePt]).map Coord.elevation = [some JSNum.nan] := rfl
  exact ⟨hmap, by simp [hmap]⟩

/-- A NaN-elevation sample followed by an elevation-100 sample. -/
noncomputable def nanPairCoords : List Coord :=
  [{ lat := 0, lon := 0, elevation := some JSNum.nan, time := none },
   { lat := 0, lon := 0, elevation := some (JSNum.num 100), time := none }]

/-- An absent-elevation sample followed by an elevation-100 sample. -/
noncomputable def nonePairCoords : List Coord :=
  [{ lat := 0, lon := 0, elevation := none, time := none },
   { lat := 0, lon := 0, elevation := some (JSNum.num 100), time := none }]

/-- C6 amended: the point is included when lat/lon are valid and the parse
does not fail, but the elevation is recorded as NaN rather than absent, and
a NaN elevation does NOT behave like an absent one: adjacent to an
elevation-bearing sample it passes the non-null guard and poisons
`minElevation` to NaN, where an absent elevation leaves it null. -/
theorem c6_nonnumeric_ele_is_nan :
    ((parseGPX [abcElePt]).toOption.map (fun r => r.coordinates.length) = some 1) ∧
    ((parseGPXPoints [abcElePt]).map Coord.elevation = [some JSNum.nan]) ∧
    ((calculateRouteStats nanPairCoords).minElevation = some JSNum.nan) ∧
    ((calculateRouteStats nonePairCoords).minElevation = none) := by
  refine ⟨rfl, rfl, ?_, ?_⟩
  · show eaccOut (minElevAcc nanPairCoords) = some JSNum.nan
    simp [nanPairCoords, minElevAcc, adjPairs, minStep, minUpdate, eaccOut]
  · show eaccOut (minElevAcc nonePairCoords) = none
    simp [nonePairCoords, minElevAcc, adjPairs, minStep, eaccOut]

/-- Ten malformed `<trkpt>` elements (missing or non-numeric lat/lon)
followed by a single valid one. -/
def mixedPts : List RawTrkpt :=
  [{ lat := none, lon := some ("0"), ele := none, time := none },
   { lat := some ("0"), lon := none, ele := none, time := none },
   { lat := some ("abc"), lon := some ("0"), ele := none, time := none },
   { lat := some ("0"), lon := some ("abc"), ele := none, time := none },
   { lat := none, lon := none, ele := none, time := none },
   { lat := some ("abc"), lon := some ("abc"), ele := none, time := none },
   { lat := some ("x"), lon := some ("1"), ele := none, time := none },
   { lat := some ("1"), lon := some ("y"), ele := none, time := none },
   { lat := none, lon := some ("abc"), ele := none, time := none },
   { lat := some ("abc"), lon := none, ele := none, time := none },
   { lat := some ("1"), lon := some ("2"), ele := none, time := none }]

/-- C7: a point is kept exactly when both lat and lon parse to non-NaN
numbers (missing attributes parse to NaN); the parse fails with
`NoTrackPoints` exactly when zero points survive; and the concrete track
with one valid point among ten malformed ones succeeds with
`pointsCount = 1`. -/
theorem c7_lenient_skip :
    (∀ p : RawTrkpt, (parsePoint p).isSome = true ↔
      ((attrFloat p.lat).isNaN = false ∧ (attrFloat p.lon).isNaN = false)) ∧
    (∀ pts : List RawTrkpt,
      (parseGPX pts = Except.error ParseError.noTrackPoints ↔ parseGPXPoints pts = [])) ∧
    ((parseGPX mixedPts).toOption.map (fun r => r.stats.pointsCount) = some 1) := by
  refine ⟨?_, ?_, ?_⟩
  · intro p
    rcases hl : attrFloat p.lat with _ | la <;> rcases ho : attrFloat p.lon with _ | lo <;>
      simp [parsePoint, hl, ho, JSNum.isNaN]
  · intro pts
    by_cases h : (parseGPXPoints pts).length = 0
    · rw [parseGPX]
      rw [if_pos h]
      simp [List.length_eq_zero.mp h]
    · rw [parseGPX]
      rw [if_neg h]
      rw [List.length_eq_zero] at h
      simp [h]
  · rfl

/-- C8: for a consecutive sample pair whose timestamps parse to valid
instants `p` and `c` (milliseconds), the accumulated `totalTimeSeconds` is
the delta `(c - p) / 1000` exactly when `0 < delta < 3600`, and `0`
otherwise — the delta is discarded, never clamped. -/
theorem c8_time_outlier_window (s1 s2 : Coord) (p c : ℝ)
    (h1 : s1.time = some (JSNum.num p)) (h2 : s2.time = some (JSNum.num c)) :
    totalTimeSeconds (hasTimeData [s1, s2]) [s1, s2] =
      if 0 < (c - p) / 1000 ∧ (c - p) / 1000 < 3600 then (c - p) / 1000 else 0 := by
  have hTD : hasTimeData [s1, s2] = true := by
    simp [hasTimeData, h1]
  rw [hTD]
  show (0 : ℝ) + pairTimeContrib true s1 s2 = _
  rw [zero_add]
  simp [pairTimeContrib, h1, h2]

/-- Witness for C8: a pair 1800 seconds apart contributes the full 1800 to
`totalTimeSeconds`, and a pair 7200 seconds apart contributes 0. -/
theorem c8_time_outlier_window_witness :
    totalTimeSeconds
        (hasTimeData
          [{ lat := 0, lon := 0, elevation := none, time := some (JSNum.num 0) },
           { lat := 0, lon := 0, elevation := none, time := some (JSNum.num 1800000) }])
        [{ lat := 0, lon := 0, elevation := none, time := some (JSNum.num 0) },
         { lat := 0, lon := 0, elevation := none, time := some (JSNum.num 1800000) }] = 1800 ∧
    totalTimeSeconds
        (hasTimeData
          [{ lat := 0, lon := 0, elevation := none, time := some (JSNum.num 0) },
           { lat := 0, lon := 0, elevation := none, time := some (JSNum.num 7200000) }])
        [{ lat := 0, lon := 0, elevation := none, time := some (JSNum.num 0) },
         { lat := 0, lon := 0, elevation := none, time := some (JSNum.num 7200000) }] = 0 := by
  constructor
  · rw [c8_time_outlier_window _ _ 0 1800000 rfl rfl]
    norm_num
  · rw [c8_time_outlier_window _ _ 0 7200000 rfl rfl]
    norm_num

/-- Helper: `dropWhile` is the identity when no element satisfies the
predicate. -/
theorem dropWhile_eq_self_of {p : Char → Bool} :
    ∀ l : List Char, (∀ c ∈ l, p c = false) → l.dropWhile p = l := by
  intro l h
  cases l with
  | nil => rfl
  | cons a r =>
    rw [List.dropWhile_cons]
    simp [h a (by simp)]

/-- Helper: trimming a whitespace-free character list is the identity. -/
theorem charTrim_eq_self (l : List Char) (h : ∀ c ∈ l, c.isWhitespace = false) :
    charTrim l = l := by
  unfold charTrim
  rw [dropWhile_eq_self_of l h,
    dropWhile_eq_self_of l.reverse (fun c hc => h c (List.mem_reverse.mp hc)),
    List.reverse_reverse]

/-- Helper: splitting a colon-free segment yields that one segment. -/
theorem splitColon_no_colon : ∀ l : List Char, (∀ c ∈ l, c ≠ ':') → splitColon l = [l] := by
  intro l
  induction l with
  | nil => intro _; rfl
  | cons c r ih =>
    intro h
    rw [splitColon]
    rw [if_neg (h c (by simp))]
    rw [ih (fun x hx => h x (by simp [hx]))]

/-- Helper: splitting peels off a leading colon-free segment. -/
theorem splitColon_append :
    ∀ (a r : List Char), (∀ c ∈ a, c ≠ ':') →
      splitColon (a ++ ':' :: r) = a :: splitColon r := by
  intro a
  induction a with
  | nil =>
    intro r _
    simp [splitColon]
  | cons c a' ih =>
    intro r h
    rw [List.cons_append, splitColon]
    rw [if_neg (h c (by simp))]
    rw [ih r (fun x hx => h x (by simp [hx]))]

/-- C9 counterexample: a finish-time string with a non-numeric component is
NOT rejected — `Number("abc")` is NaN, which the source coerces to 0, so
`"abc:30"` parses as 0*60 + 30 = 30 seconds instead of yielding null. -/
theorem c9_nonnumeric_component_refuted :
    parseTimeToSeconds ("abc:30") = some 30 ∧ parseTimeToSeconds ("abc:30") ≠ none := by
  have hone : (jsNumberL (charTrim ['a', 'b', 'c'])).getD 0 = 0 := rfl
  have htwo : (jsNumberL (charTrim ['3', '0'])).getD 0 = 1 * ((30 : ℕ) : ℚ) := rfl
  have hsplit : splitColon (charTrim (("abc:30").data)) = [['a', 'b', 'c'], ['3', '0']] := by
    decide
  have hmain : parseTimeToSeconds ("abc:30") = some 30 := by
    show parseTimeToSecondsL (("abc:30").data) = some 30
    simp only [parseTimeToSecondsL, timeParts, hsplit]
    rw [if_neg (by decide)]
    simp only [List.map]
    rw [hone, htwo]
    norm_num
  exact ⟨hmain, by simp [hmain]⟩

/-- C9 amended: the parser accepts `a:b:c` as `v(a)*3600 + v(b)*60 + v(c)`,
`a:b` as `v(a)*60 + v(b)`, and a bare part as its value when positive,
where `v` coerces a non-numeric (NaN) component to 0 instead of rejecting
the string; null arises exactly from four or more parts or from a single
non-positive part. -/
theorem c9_accepted_shapes (p1 p2 p3 p4 : List Char)
    (h1 : ∀ ch ∈ p1, ch ≠ ':' ∧ ch.isWhitespace = false)
    (h2 : ∀ ch ∈ p2, ch ≠ ':' ∧ ch.isWhitespace = false)
    (h3 : ∀ ch ∈ p3, ch ≠ ':' ∧ ch.isWhitespace = false)
    (h4 : ∀ ch ∈ p4, ch ≠ ':' ∧ ch.isWhitespace = false) :
    (parseTimeToSecondsL (p1 ++ ':' :: (p2 ++ ':' :: p3)) =
      some ((jsNumberL p1).getD 0 * 3600 + (jsNumberL p2).getD 0 * 60 +
        (jsNumberL p3).getD 0)) ∧
    (parseTimeToSecondsL (p1 ++ ':' :: p2) =
      some ((jsNumberL p1).getD 0 * 60 + (jsNumberL p2).getD 0)) ∧
    (p1 ≠ [] → 0 < (jsNumberL p1).getD 0 →
      parseTimeToSecondsL p1 = some ((jsNumberL p1).getD 0)) ∧
    (parseTimeToSecondsL (p1 ++ ':' :: (p2 ++ ':' :: (p3 ++ ':' :: p4))) = none) := by
  have hColon : (':' : Char).isWhitespace = false := by decide
  have wsApp : ∀ (a b : List Char), (∀ c ∈ a, c.isWhitespace = false) →
      (∀ c ∈ b, c.isWhitespace = false) → ∀ c ∈ a ++ b, c.isWhitespace = false := by
    intro a b ha hb c hc
    rcases List.mem_append.mp hc with h | h
    · exact ha c h
    · exact hb c h
  have wsCons : ∀ (x : Char) (b : List Char), x.isWhitespace = false →
      (∀ c ∈ b, c.isWhitespace = false) → ∀ c ∈ x :: b, c.isWhitespace = false := by
    intro x b hx hb c hc
    rcases List.mem_cons.mp hc with h | h
    · rw [h]; exact hx
    · exact hb c h
  have w1 : ∀ c ∈ p1, c.isWhitespace = false := fun c hc => (h1 c hc).2
  have w2 : ∀ c ∈ p2, c.isWhitespace = false := fun c hc => (h2 c hc).2
  have w3 : ∀ c ∈ p3, c.isWhitespace = false := fun c hc => (h3 c hc).2
  have w4 : ∀ c ∈ p4, c.isWhitespace = false := fun c hc => (h4 c hc).2
  have htrim1 : charTrim p1 = p1 := charTrim_eq_self _ w1
  have htrim2 : charTrim (p1 ++ ':' :: p2) = p1 ++ ':' :: p2 :=
    charTrim_eq_self _ (wsApp _ _ w1 (wsCons _ _ hColon w2))
  have htrim3 : charTrim (p1 ++ ':' :: (p2 ++ ':' :: p3)) = p1 ++ ':' :: (p2 ++ ':' :: p3) :=
    charTrim_eq_self _ (wsApp _ _ w1 (wsCons _ _ hColon (wsApp _ _ w2 (wsCons _ _ hColon w3))))
  have htrim4 : charTrim (p1 ++ ':' :: (p2 ++ ':' :: (p3 ++ ':' :: p4))) =
      p1 ++ ':' :: (p2 ++ ':' :: (p3 ++ ':' :: p4)) :=
    charTrim_eq_self _ (wsApp _ _ w1 (wsCons _ _ hColon
      (wsApp _ _ w2 (wsCons _ _ hColon (wsApp _ _ w3 (wsCons _ _ hColon w4))))))
  have hp1 : ∀ c ∈ p1, c ≠ ':' := fun c hc => (h1 c hc).1
  have hp2 : ∀ c ∈ p2, c ≠ ':' := fun c hc => (h2 c hc).1
  have hp3 : ∀ c ∈ p3, c ≠ ':' := fun c hc => (h3 c hc).1
  have hp4 : ∀ c ∈ p4, c ≠ ':' := fun c hc => (h4 c hc).1
  have hne3 : p1 ++ ':' :: (p2 ++ ':' :: p3) ≠ [] := by
    cases p1 <;> simp
  have hne2 : p1 ++ ':' :: p2 ≠ [] := by
    cases p1 <;> simp
  have hne4 : p1 ++ ':' :: (p2 ++ ':' :: (p3 ++ ':' :: p4)) ≠ [] := by
    cases p1 <;> simp
  refine ⟨?_, ?_, ?_, ?_⟩
  · simp only [parseTimeToSecondsL, timeParts, htrim3]
    rw [if_neg hne3, splitColon_append p1 _ hp1, splitColon_append p2 _ hp2,
      splitColon_no_colon p3 hp3]
    simp only [List.map_cons, List.map_nil]
    rw [htrim1, charTrim_eq_self p2 w2, charTrim_eq_self p3 w3]
  · simp only [parseTimeToSecondsL, timeParts, htrim2]
    rw [if_neg hne2, splitColon_append p1 _ hp1, splitColon_no_colon p2 hp2]
    simp only [List.map_cons, List.map_nil]
    rw [htrim1, charTrim_eq_self p2 w2]
  · intro hne hpos
    simp only [parseTimeToSecondsL, timeParts, htrim1]
    rw [if_neg hne, splitColon_no_colon p1 hp1]
    simp only [List.map_cons, List.map_nil]
    rw [htrim1, if_pos hpos]
  · simp only [parseTimeToSecondsL, timeParts, htrim4]
    rw [if_neg hne4, splitColon_append p1 _ hp1, splitColon_append p2 _ hp2,
      splitColon_append p3 _ hp3, splitColon_no_colon p4 hp4]
    simp only [List.map_cons, List.map_nil]

/-- Witness for C9 amended: `"3:45:30"` parses to 13530 s, `"45:30"` to
2730 s, `"90"` to 90 s, and a four-part string to null. -/
theorem c9_accepted_shapes_witness :
    parseTimeToSeconds ("3:45:30") = some 13530 ∧
    parseTimeToSeconds ("45:30") = some 2730 ∧
    parseTimeToSeconds ("90") = some 90 ∧
    parseTimeToSeconds ("1:2:3:4") = none := by
  have e3 : (jsNumberL ['3']).getD 0 = 1 * ((3 : ℕ) : ℚ) := rfl
  have e45 : (jsNumberL ['4', '5']).getD 0 = 1 * ((45 : ℕ) : ℚ) := rfl
  have e30 : (jsNumberL ['3', '0']).getD 0 = 1 * ((30 : ℕ) : ℚ) := rfl
  have e90 : (jsNumberL ['9', '0']).getD 0 = 1 * ((90 : ℕ) : ℚ) := rfl
  refine ⟨?_, ?_, ?_, ?_⟩
  · have h := (c9_accepted_shapes ['3'] ['4', '5'] ['3', '0'] []
      (by decide) (by decide) (by decide) (by decide)).1
    refine Eq.trans h ?_
    rw [e3, e45, e30]
    norm_num
  · have h := (c9_accepted_shapes ['4', '5'] ['3', '0'] [] []
      (by decide) (by decide) (by decide) (by decide)).2.1
    refine Eq.trans h ?_
    rw [e45, e30]
    norm_num
  · have h := (c9_accepted_shapes ['9', '0'] [] [] []
      (by decide) (by decide) (by decide) (by decide)).2.2.1
      (by decide) (by rw [e90]; norm_num)
    refine Eq.trans h ?_
    rw [e90]
    norm_num
  · exact (c9_accepted_shapes ['1'] ['2'] ['3'] ['4']
      (by decide) (by decide) (by decide) (by decide)).2.2.2

/-- The haversine contribution of one `(prev, curr)` pair. -/
noncomputable def pairDist (pc : Coord × Coord) : ℝ :=
  haversineDistance pc.1.lat pc.1.lon pc.2.lat pc.2.lon

/-- `totalDistance` as a sum over the adjacent pairs. -/
theorem totalDistance_eq_sum (l : List Coord) :
    totalDistance l = ((adjPairs l).map pairDist).sum := by
  show (adjPairs l).foldl (fun acc x => acc + pairDist x) 0 = _
  rw [foldl_add_eq_sum pairDist, zero_add]

/-- The haversine formula is symmetric in its two endpoints. -/
theorem haversineDistance_symm (lat1 lon1 lat2 lon2 : ℝ) :
    haversineDistance lat2 lon2 lat1 lon1 = haversineDistance lat1 lon1 lat2 lon2 := by
  have hs : ∀ u v : ℝ,
      Real.sin ((u - v) * Real.pi / 180 / 2) = -Real.sin ((v - u) * Real.pi / 180 / 2) := by
    intro u v
    have h : (u - v) * Real.pi / 180 / 2 = -((v - u) * Real.pi / 180 / 2) := by ring
    rw [h, Real.sin_neg]
  simp only [haversineDistance]
  rw [hs lat1 lat2, hs lon1 lon2]
  ring_nf

/-- The last-pair contribution when one sample is appended. -/
noncomputable def lastPairDist (l : List Coord) (x : Coord) : ℝ :=
  match l.getLast? with
  | none => 0
  | some y => pairDist (y, x)

/-- Appending a sample adds the distance from the previous last sample. -/
theorem adjPairs_sum_concat :
    ∀ (l : List Coord) (x : Coord),
      ((adjPairs (l ++ [x])).map pairDist).sum =
        ((adjPairs l).map pairDist).sum + lastPairDist l x := by
  intro l
  induction l with
  | nil =>
    intro x
    simp [adjPairs, lastPairDist]
  | cons a t ih =>
    intro x
    cases t with
    | nil =>
      simp [adjPairs, lastPairDist, pairDist]
    | cons b t2 =>
      have hstep : ((a :: b :: t2) ++ [x]) = a :: ((b :: t2) ++ [x]) := rfl
      rw [hstep]
      have hpairs : adjPairs (a :: ((b :: t2) ++ [x])) =
          (a, b) :: adjPairs ((b :: t2) ++ [x]) := rfl
      rw [hpairs]
      have hpairs2 : adjPairs (a :: b :: t2) = (a, b) :: adjPairs (b :: t2) := rfl
      rw [hpairs2]
      simp only [List.map_cons, List.sum_cons]
      rw [ih x]
      have hlast : lastPairDist (a :: b :: t2) x = lastPairDist (b :: t2) x := by
        simp [lastPairDist, List.getLast?_cons_cons]
      rw [hlast]
      ring

/-- C10: reversing the sample list leaves the computed total route distance
unchanged — each pairwise haversine term is symmetric in its endpoints, so
the reversed traversal accumulates the same sum. -/
theorem c10_distance_reverse_invariant (coords : List Coord) :
    (calculateRouteStats coords.reverse).distance = (calculateRouteStats coords).distance := by
  show totalDistance coords.reverse = totalDistance coords
  rw [totalDistance_eq_sum, totalDistance_eq_sum]
  induction coords with
  | nil => rfl
  | cons a t ih =>
    have hrev : (a :: t).reverse = t.reverse ++ [a] := by simp
    rw [hrev, adjPairs_sum_concat t.reverse a, ih]
    cases t with
    | nil =>
      simp [adjPairs, lastPairDist]
    | cons b t2 =>
      have hlast : lastPairDist (b :: t2).reverse a = pairDist (b, a) := by
        simp only [lastPairDist, List.getLast?_reverse]
        rfl
      rw [hlast]
      have hpairs : adjPairs (a :: b :: t2) = (a, b) :: adjPairs (b :: t2) := rfl
      rw [hpairs]
      simp only [List.map_cons, List.sum_cons]
      have hsym : pairDist (b, a) = pairDist (a, b) := by
        simp only [pairDist]
        exact haversineDistance_symm a.lat a.lon b.lat b.lon
      rw [hsym]
      ring

end BibJournal
